import Mathlib

/-!
# Verification of the PhotoShelter API client request/response pipeline

Shallow embedding of the request/response/error pipeline of `src/main.js`
(the `PhotoShelterV4API` and `PhotoShelterV3API` client factories), covering
the credential/session holder, the request pipeline, the error classifier,
the two response unwrappers and the login operation.

Modelling conventions:
* JSON values are the inductive `Json`; the JavaScript value `undefined` is
  modelled as `none` in `Option Json`, so a dynamic JavaScript value is an
  `Option Json` (property access on a missing key yields `none`).
* Effects are made explicit: a pipeline run returns its thrown-or-returned
  outcome together with the list of `fetch` calls it performed and the
  caller-visible `options` object after the run (the source mutates
  `options.headers` in place).
* The network is a deterministic oracle: each run takes the `Response` that
  `fetch` would resolve with.  A `Response`'s `.json()` outcome is the
  `jsonOf` field (`none` models a body that is not valid JSON, in which case
  `response.json()` throws), and `.arrayBuffer()` yields the raw `body` bytes.
-/

namespace PS

/-- JSON values, as produced by `response.json()`.  Object fields keep
insertion order, mirroring JavaScript objects. -/
inductive Json where
  | null : Json
  | bool (b : Bool) : Json
  | num (n : Int) : Json
  | str (s : String) : Json
  | arr (elems : List Json) : Json
  | obj (fields : List (String × Json)) : Json

/-- JavaScript property access `j[k]` on a parsed JSON value: a field lookup
on objects, `undefined` (`none`) on anything else. -/
def getField (j : Json) (k : String) : Option Json :=
  match j with
  | .obj fields =>
    match fields.find? (fun p => p.1 = k) with
    | some p => some p.2
    | none => none
  | _ => none

/-- JavaScript truthiness of a possibly-`undefined` value, as used by
`!authToken`, `.filter(Boolean)` and `obj[key] ? _ : _` in the source. -/
def jsTruthy (v : Option Json) : Bool :=
  match v with
  | none => false
  | some .null => false
  | some (.bool b) => b
  | some (.num n) => n != 0
  | some (.str s) => s != ""
  | some (.arr _) => true
  | some (.obj _) => true

/-- JavaScript `Array.prototype.join(sep)` on a list of already-stringified
elements. -/
def joinSep (sep : String) : List String → String
  | [] => ""
  | [x] => x
  | x :: y :: rest => x ++ sep ++ joinSep sep (y :: rest)

mutual
/-- JavaScript string coercion `String(v)` of a JSON value (arrays join their
elements with `","`, plain objects print as `[object Object]`). -/
def jsToString : Json → String
  | .null => "null"
  | .bool b => cond b "true" "false"
  | .num n => toString n
  | .str s => s
  | .arr elems => joinSep "," (jsToStringList elems)
  | .obj _ => "[object Object]"

/-- Stringification of the elements of an array for `Array.prototype.join`:
`null` elements become the empty string. -/
def jsToStringList : List Json → List String
  | [] => []
  | .null :: rest => "" :: jsToStringList rest
  | j :: rest => jsToString j :: jsToStringList rest
end

/-- JavaScript string coercion of a possibly-`undefined` value. -/
def jsOptToString (v : Option Json) : String :=
  match v with
  | none => "undefined"
  | some j => jsToString j

/-! ## Percent-encoding

Both `encodeURIComponent` (used by `toForm`) and the
`application/x-www-form-urlencoded` serializer of `URLSearchParams.toString()`
(used by `request` for the query string) operate on the UTF-8 bytes of the
input, keeping an (encoder-specific) set of ASCII bytes and writing every
other byte as `%XX` with uppercase hex digits. -/

/-- The UTF-8 bytes of a character, as natural numbers. -/
def utf8Bytes (c : Char) : List Nat :=
  let n := c.toNat
  if n < 0x80 then [n]
  else if n < 0x800 then
    [0xC0 ||| (n >>> 6), 0x80 ||| (n &&& 0x3F)]
  else if n < 0x10000 then
    [0xE0 ||| (n >>> 12), 0x80 ||| ((n >>> 6) &&& 0x3F), 0x80 ||| (n &&& 0x3F)]
  else
    [0xF0 ||| (n >>> 18), 0x80 ||| ((n >>> 12) &&& 0x3F),
      0x80 ||| ((n >>> 6) &&& 0x3F), 0x80 ||| (n &&& 0x3F)]

/-- The UTF-8 bytes of a string. -/
def strBytes (s : String) : List Nat :=
  (s.toList.map utf8Bytes).flatten

/-- Uppercase hexadecimal digit for `n < 16`. -/
def hexDigit (n : Nat) : Char :=
  if n < 10 then Char.ofNat (48 + n) else Char.ofNat (55 + n)

/-- `%XX` escape of one byte, uppercase hex. -/
def byteHex (b : Nat) : String :=
  String.mk ['%', hexDigit (b / 16), hexDigit (b % 16)]

/-- ASCII letter or digit, at the byte level. -/
def isAlnumByte (b : Nat) : Bool :=
  (48 ≤ b && b ≤ 57) || (65 ≤ b && b ≤ 90) || (97 ≤ b && b ≤ 122)

/-- Bytes `encodeURIComponent` leaves unescaped:
alphanumerics and `- _ . ! ~ * ' ( )`. -/
def uriUnreserved (b : Nat) : Bool :=
  isAlnumByte b || b == 45 || b == 95 || b == 46 || b == 33 || b == 126 ||
    b == 42 || b == 39 || b == 40 || b == 41

/-- JavaScript `encodeURIComponent`. -/
def encodeURIComponent (s : String) : String :=
  (strBytes s).foldl
    (fun acc b =>
      acc ++ (if uriUnreserved b then String.mk [Char.ofNat b] else byteHex b))
    ""

/-- Bytes the `application/x-www-form-urlencoded` serializer leaves
unescaped: alphanumerics and `* - . _` (space becomes `+`). -/
def formUnreserved (b : Nat) : Bool :=
  isAlnumByte b || b == 42 || b == 45 || b == 46 || b == 95

/-- One component of `URLSearchParams.toString()`'s
`application/x-www-form-urlencoded` serialization. -/
def formEncode (s : String) : String :=
  (strBytes s).foldl
    (fun acc b =>
      acc ++
        (if b == 32 then "+"
         else if formUnreserved b then String.mk [Char.ofNat b]
         else byteHex b))
    ""

/-- `new URLSearchParams(params).toString()` for a record of string pairs:
each pair is encoded and the pairs are joined with `&`, in insertion order,
with no pair dropped (empty-string values included). -/
def serializeParams (params : List (String × String)) : String :=
  joinSep "&" (params.map (fun p => formEncode p.1 ++ "=" ++ formEncode p.2))

/-- `url.search = q` followed by stringification of the URL: a non-empty
query string is appended after `?`, an empty one leaves the URL alone. -/
def querySuffix (q : String) : String :=
  if q = "" then "" else "?" ++ q

/-! ## Responses -/

/-- A `fetch` `Response`, reduced to what the pipeline inspects: the numeric
HTTP status, the status text, the raw body bytes (what `.arrayBuffer()`
yields) and the outcome of `.json()` (`none` when the body is not valid JSON
and `.json()` would throw). -/
structure Response where
  status : Nat
  statusText : String
  body : List Nat
  jsonOf : Option Json

/-- `response.ok`: status in the inclusive range 200–299. -/
def Response.ok (r : Response) : Bool :=
  200 ≤ r.status && r.status ≤ 299

/-- `response.clone()`: a copy of the response whose body stream is
unconsumed.  Responses are immutable data in this model, so the clone is the
same data. -/
def Response.clone (r : Response) : Response := r

/-- A value the pipeline hands back to the caller: either a JavaScript value
(possibly `undefined`) or the raw bytes of an `ArrayBuffer`. -/
inductive RespVal where
  | val (v : Option Json) : RespVal
  | bytes (b : List Nat) : RespVal

/-- Variant A (the v4 client's `responseType`): clone the response, try
`response.json()`, and on parse failure fall back to the raw bytes of the
unconsumed clone. -/
def responseTypeV4 (response : Response) : RespVal :=
  let clone := response.clone
  match response.jsonOf with
  | some json => .val (some json)
  | none => .bytes clone.body

/-- Variant B (the v3 client's `responseType`): clone the response, try
`response.json()` and return `json.data`; on parse failure fall back to the
raw bytes of the unconsumed clone. -/
def responseTypeV3 (response : Response) : RespVal :=
  let clone := response.clone
  match response.jsonOf with
  | some json => .val (getField json "data")
  | none => .bytes clone.body

/-- Property access on a value returned by a response unwrapper, as in
`json.token` after `responseType(response)`: a field lookup when the value is
a JSON object, `undefined` otherwise (an `ArrayBuffer` has no such
property). -/
def respGet (v : RespVal) (k : String) : Option Json :=
  match v with
  | .val (some j) => getField j k
  | .val none => none
  | .bytes _ => none

/-! ## Errors and the error classifier -/

/-- What a failing pipeline path throws: an `Error` with a message, the
parse error `response.json()` raises on a non-JSON body, or a `TypeError`
from accessing a method of `undefined`/a non-array. -/
inductive JsError where
  | error (msg : String) : JsError
  | parseError : JsError
  | typeError : JsError

/-- Outcome of the error classifier: the error it throws, plus whether it
read the response body (`response.json()`) on the way. -/
structure ClassifierOutcome where
  thrown : JsError
  bodyRead : Bool

/-- The error classifier `handleErrors(response, location)`, textually
identical in the v4 and v3 clients.  The source guard is the loose comparison
`response.status == "404"`, which coerces the string `"404"` to the number
404, so for the numeric `response.status` it is equality with 404.  On 404 it
throws from the status text without touching the body; otherwise it parses
the body (throwing the parse error if the body is not JSON — unhandled in
the source), maps the `errors` list to titles, keeps the truthy ones, joins
them with `" | "` and throws the assembled message. -/
def handleErrors (response : Response) (location : String) : ClassifierOutcome :=
  if response.status = 404 then
    { thrown := .error ("Request Failed. Request Response: " ++ location ++
        " = " ++ response.statusText),
      bodyRead := false }
  else
    match response.jsonOf with
    | none => { thrown := .parseError, bodyRead := true }
    | some json =>
      match getField json "errors" with
      | some (.arr errs) =>
        let msg := joinSep " | "
          (((errs.map (fun e => getField e "title")).filter jsTruthy).map
            jsOptToString)
        { thrown := .error ("Request Failed. Request Response: " ++ location ++
            " = " ++ msg),
          bodyRead := true }
      | _ => { thrown := .typeError, bodyRead := true }

/-! ## Header objects

A JavaScript header object is an association list with unique keys kept in
insertion order; values are JavaScript values (a header set to `undefined`
still owns its key).  `{ ...h, k: v }` copies `h` and then assigns each
literal key: an assignment overwrites the value of an existing key in place
and appends a fresh key at the end. -/

/-- Header/property maps: keys in insertion order, possibly-`undefined`
values. -/
abbrev HeaderMap := List (String × Option Json)

/-- JavaScript property assignment `m[k] = v` on an object literal:
overwrite in place if the key exists, append otherwise. -/
def setKey : HeaderMap → String → Option Json → HeaderMap
  | [], k, v => [(k, v)]
  | (k', v') :: rest, k, v =>
    if k' = k then (k, v) :: rest else (k', v') :: setKey rest k v

/-- Property read `m[k]`: `none` when the object has no such key. -/
def lookupKey : HeaderMap → String → Option (Option Json)
  | [], _ => none
  | (k', v) :: rest, k => if k' = k then some v else lookupKey rest k

/-- The header merge the pipeline performs:
`{ ...options.headers, "X-PS-Auth-Token": authToken, "X-PS-API-Key": apiKey,
"Content-Type": "application/json" }` — the spread of the caller's headers
followed by the three fixed assignments, in source order. -/
def mergeHeaders (callerHeaders : HeaderMap) (authToken : Option Json)
    (apiKey : String) : HeaderMap :=
  setKey
    (setKey
      (setKey callerHeaders "X-PS-Auth-Token" authToken)
      "X-PS-API-Key" (some (.str apiKey)))
    "Content-Type" (some (.str "application/json"))

/-! ## Sessions, options and pipeline runs -/

/-- The per-client session holder: the factory's `authToken`, `org` and
`isTwoFactor` variables, all initialised to `null`. -/
structure Session where
  authToken : Option Json
  org : Option Json
  isTwoFactor : Option Json

/-- A freshly constructed client's session: `let authToken = null, org =
null, isTwoFactor = null`. -/
def initialSession : Session :=
  { authToken := some .null, org := some .null, isTwoFactor := some .null }

/-- The `options` argument of a pipeline call / second argument of `fetch`:
optional method (default `GET`), headers, optional body. -/
structure Options where
  method : Option String := none
  headers : HeaderMap := []
  body : Option String := none

/-- One `fetch` invocation recorded by a run: the stringified URL and the
init object passed alongside it. -/
structure FetchCall where
  url : String
  options : Options

/-- Everything observable about one `request` run: the value returned or the
error thrown, the `fetch` calls performed (in order), and the caller's
`options` object after the run (the source reassigns `options.headers` on the
caller's object before fetching). -/
structure RequestResult where
  result : Except JsError RespVal
  fetchCalls : List FetchCall
  options : Options

/-- Base URL of the v4 client. -/
def baseUrlV4 : String := "https://www.photoshelter.com/psapi/v4.0"

/-- Base URL of the v3 client. -/
def baseUrlV3 : String := "https://www.photoshelter.com/psapi/v3"

/-- The shared request pipeline, parameterized by the base URL and the
response unwrapper (the v4 and v3 `request` functions are textually identical
up to those two): throw before any fetch when `!authToken`; reassign
`options.headers` to the merged headers; build the URL from the endpoint and
the serialized query params; fetch; classify failures via `handleErrors`,
unwrap successes via `responseType`. -/
def requestWith (baseUrl : String) (responseType : Response → RespVal)
    (apiKey : String) (st : Session) (endpoint : String)
    (params : List (String × String)) (options : Options) (net : Response) :
    RequestResult :=
  if jsTruthy st.authToken = false then
    { result := .error (.error
        "No auth token. Make sure to authenticate.login() first"),
      fetchCalls := [],
      options := options }
  else
    let opts : Options :=
      { options with
        headers := mergeHeaders options.headers st.authToken apiKey }
    let url := baseUrl ++ endpoint ++ querySuffix (serializeParams params)
    let response := net
    if response.ok then
      { result := .ok (responseType response),
        fetchCalls := [{ url := url, options := opts }],
        options := opts }
    else
      { result := .error (handleErrors response endpoint).thrown,
        fetchCalls := [{ url := url, options := opts }],
        options := opts }

/-- The v4 client's `request`. -/
def requestV4 (apiKey : String) (st : Session) (endpoint : String)
    (params : List (String × String)) (options : Options) (net : Response) :
    RequestResult :=
  requestWith baseUrlV4 responseTypeV4 apiKey st endpoint params options net

/-- The v3 client's `request`. -/
def requestV3 (apiKey : String) (st : Session) (endpoint : String)
    (params : List (String × String)) (options : Options) (net : Response) :
    RequestResult :=
  requestWith baseUrlV3 responseTypeV3 apiKey st endpoint params options net

/-! ## Login -/

/-- `toForm(obj)` as in both clients of `src/main.js`: map each key of the
object, in insertion order, to `encodeURIComponent(key)=encodeURIComponent(value)`
when the value is truthy and to the empty string otherwise; drop the empty
strings with `.filter(Boolean)`; join with `&`. -/
def toForm (obj : HeaderMap) : String :=
  joinSep "&"
    ((obj.map (fun p =>
        if jsTruthy p.2 then
          encodeURIComponent p.1 ++ "=" ++ encodeURIComponent (jsOptToString p.2)
        else ""))
      |>.filter (fun s => s ≠ ""))

/-- The object literal `{ email, password, mode: "token", org_id: orgId }`
built by `login`; `orgId` is the optional third parameter (`none` models the
argument being omitted, i.e. `undefined`). -/
def loginFields (email password : String) (orgId : Option String) : HeaderMap :=
  [("email", some (.str email)),
   ("password", some (.str password)),
   ("mode", some (.str "token")),
   ("org_id", orgId.map Json.str)]

/-- Everything observable about one `authenticate.login` run: completion or
thrown error, the session holder after the run, and the `fetch` calls
performed. -/
structure LoginResult where
  result : Except JsError Unit
  session : Session
  fetchCalls : List FetchCall

/-- The shared body of `authenticate.login`, parameterized by the login URL
and the response unwrapper: POST the form body with only the API-key and
form content-type headers; on a non-ok response throw via `handleErrors`
with location `"login"` (leaving the session untouched); on success unwrap
the body and store `json.token`, `json.org` and `json.two_factor` into the
session holder. -/
def loginWith (loginUrl : String) (responseType : Response → RespVal)
    (apiKey : String) (st : Session) (email password : String)
    (orgId : Option String) (net : Response) : LoginResult :=
  let body := toForm (loginFields email password orgId)
  let call : FetchCall :=
    { url := loginUrl,
      options :=
        { method := some "POST",
          headers :=
            [("content-type", some (.str "application/x-www-form-urlencoded")),
             ("X-PS-Api-Key", some (.str apiKey))],
          body := some body } }
  let response := net
  if response.ok then
    let json := responseType response
    { result := .ok (),
      session :=
        { authToken := respGet json "token",
          org := respGet json "org",
          isTwoFactor := respGet json "two_factor" },
      fetchCalls := [call] }
  else
    { result := .error (handleErrors response "login").thrown,
      session := st,
      fetchCalls := [call] }

/-- The v4 client's `authenticate.login`: posts to `/authenticate` under the
v4 base URL and unwraps with variant A. -/
def loginV4 (apiKey : String) (st : Session) (email password : String)
    (orgId : Option String) (net : Response) : LoginResult :=
  loginWith (baseUrlV4 ++ "/authenticate") responseTypeV4
    apiKey st email password orgId net

/-- The v3 client's `authenticate.login`: posts to `/mem/authenticate` under
the v3 base URL and unwraps with variant B (so the session fields come from
the `data` envelope of the response). -/
def loginV3 (apiKey : String) (st : Session) (email password : String)
    (orgId : Option String) (net : Response) : LoginResult :=
  loginWith (baseUrlV3 ++ "/mem/authenticate") responseTypeV3
    apiKey st email password orgId net

/-! ## Spec-side helpers -/

/-- Spec-side description used by claim C4: the titles present on the error
objects, in order (the title field, when it is a string). -/
def presentTitles (errs : List Json) : List String :=
  errs.filterMap (fun e =>
    match getField e "title" with
    | some (.str s) => some s
    | _ => none)

/-- Spec-side extraction helper: the string value of a header, or `""` when
the header is absent or not a string. -/
def headerStr (m : HeaderMap) (k : String) : String :=
  match lookupKey m k with
  | some (some (.str s)) => s
  | _ => ""

/-- Spec-side decidable hypothesis for claim C4: every element of the errors
list either has no `title` field or has a nonempty string one. -/
def titlesWellFormed (errs : List Json) : Bool :=
  errs.all (fun e =>
    match getField e "title" with
    | none => true
    | some (.str s) => s != ""
    | some _ => false)

/-! ## Helper lemmas -/

theorem lookupKey_setKey_self (m : HeaderMap) (k : String) (v : Option Json) :
    lookupKey (setKey m k v) k = some v := by
  induction m with
  | nil => simp [setKey, lookupKey]
  | cons p rest ih =>
    obtain ⟨k', v'⟩ := p
    by_cases h : k' = k
    · simp [setKey, lookupKey, h]
    · simp [setKey, lookupKey, h, ih]

theorem lookupKey_setKey_ne (m : HeaderMap) {k q : String} (v : Option Json)
    (h : q ≠ k) : lookupKey (setKey m k v) q = lookupKey m q := by
  have hk : k ≠ q := fun hh => h hh.symm
  induction m with
  | nil => simp [setKey, lookupKey, hk]
  | cons p rest ih =>
    obtain ⟨k', v'⟩ := p
    by_cases h' : k' = k
    · subst h'
      simp [setKey, lookupKey, hk]
    · by_cases hq : k' = q
      · simp [setKey, lookupKey, h', hq, h]
      · simp [setKey, lookupKey, h', hq, ih]

theorem lookupKey_mergeHeaders_contentType (m : HeaderMap) (tok : Option Json)
    (apiKey : String) :
    lookupKey (mergeHeaders m tok apiKey) "Content-Type" =
      some (some (.str "application/json")) :=
  lookupKey_setKey_self _ _ _

theorem lookupKey_mergeHeaders_apiKey (m : HeaderMap) (tok : Option Json)
    (apiKey : String) :
    lookupKey (mergeHeaders m tok apiKey) "X-PS-API-Key" =
      some (some (.str apiKey)) := by
  unfold mergeHeaders
  rw [lookupKey_setKey_ne _ _ (by decide), lookupKey_setKey_self]

theorem lookupKey_mergeHeaders_authToken (m : HeaderMap) (tok : Option Json)
    (apiKey : String) :
    lookupKey (mergeHeaders m tok apiKey) "X-PS-Auth-Token" = some tok := by
  unfold mergeHeaders
  rw [lookupKey_setKey_ne _ _ (by decide), lookupKey_setKey_ne _ _ (by decide),
    lookupKey_setKey_self]

theorem lookupKey_mergeHeaders_other (m : HeaderMap) (tok : Option Json)
    (apiKey : String) {k : String} (h1 : k ≠ "X-PS-Auth-Token")
    (h2 : k ≠ "X-PS-API-Key") (h3 : k ≠ "Content-Type") :
    lookupKey (mergeHeaders m tok apiKey) k = lookupKey m k := by
  unfold mergeHeaders
  rw [lookupKey_setKey_ne _ _ h3, lookupKey_setKey_ne _ _ h2,
    lookupKey_setKey_ne _ _ h1]

theorem headerStr_mergeHeaders_token (m : HeaderMap) (t apiKey : String) :
    headerStr (mergeHeaders m (some (.str t)) apiKey) "X-PS-Auth-Token" = t := by
  simp [headerStr, lookupKey_mergeHeaders_authToken]

theorem headerStr_mergeHeaders_contentType (m : HeaderMap) (tok : Option Json)
    (apiKey : String) :
    headerStr (mergeHeaders m tok apiKey) "Content-Type" = "application/json" := by
  simp [headerStr, lookupKey_mergeHeaders_contentType]

theorem joinSep_infix (sep : String) {s : String} :
    ∀ {l : List String}, s ∈ l → ∃ pre post, joinSep sep l = pre ++ s ++ post := by
  intro l h
  induction l with
  | nil => cases h
  | cons x rest ih =>
    cases rest with
    | nil =>
      have hx : s = x := by simpa using h
      subst hx
      exact ⟨"", "", by simp [joinSep]⟩
    | cons y ys =>
      rcases List.mem_cons.mp h with rfl | h'
      · exact ⟨"", sep ++ joinSep sep (y :: ys), by
          simp [joinSep, String.append_assoc]⟩
      · obtain ⟨pre, post, hp⟩ := ih h'
        exact ⟨x ++ sep ++ pre, post, by
          simp [joinSep, hp, String.append_assoc]⟩

theorem titles_join {errs : List Json} (h : titlesWellFormed errs = true) :
    ((errs.map (fun e => getField e "title")).filter jsTruthy).map jsOptToString
      = presentTitles errs := by
  induction errs with
  | nil => rfl
  | cons e rest ih =>
    rw [titlesWellFormed, List.all_cons, Bool.and_eq_true] at h
    obtain ⟨he, hrest⟩ := h
    have ih' := ih hrest
    cases hgf : getField e "title" with
    | none =>
      simp only [hgf] at he ⊢
      simp [presentTitles, List.filterMap_cons, hgf, jsTruthy, ih']
    | some v =>
      rw [hgf] at he
      cases v with
      | str s =>
        have hs : s ≠ "" := by simpa using he
        simp [presentTitles, List.filterMap_cons, hgf, jsTruthy, hs,
          jsOptToString, jsToString, ih']
      | null => simp at he
      | bool b => simp at he
      | num n => simp at he
      | arr a => simp at he
      | obj o => simp at he

theorem encPair_ne_empty (k v : String) :
    encodeURIComponent k ++ "=" ++ encodeURIComponent v ≠ "" := by
  intro h
  have hl := congrArg String.length h
  have h1 : ("=" : String).length = 1 := rfl
  simp [String.length_append, h1] at hl

/-! ## Claims -/

/-- C1: For every endpoint operation other than login — all of which are
thin calls into `request` — and for every input, if the session holder's
auth token is unset (`null`), the call throws the error telling the caller
to authenticate first and performs no `fetch` call, in both the v4 and the
v3 client. -/
theorem claim_C1 (apiKey : String) (st : Session) (endpoint : String)
    (params : List (String × String)) (options : Options) (net : Response)
    (h : st.authToken = some Json.null) :
    requestV4 apiKey st endpoint params options net =
      { result := .error (.error
          "No auth token. Make sure to authenticate.login() first"),
        fetchCalls := [], options := options } ∧
    requestV3 apiKey st endpoint params options net =
      { result := .error (.error
          "No auth token. Make sure to authenticate.login() first"),
        fetchCalls := [], options := options } := by
  constructor <;> simp [requestV4, requestV3, requestWith, h, jsTruthy]

/-- Witness for C1: a freshly constructed client (token still `null`)
rejects a `/collections` call without fetching. -/
theorem claim_C1_witness :
    requestV4 "KEY" initialSession "/collections" [] {}
        ⟨200, "OK", [], none⟩ =
      { result := .error (.error
          "No auth token. Make sure to authenticate.login() first"),
        fetchCalls := [], options := {} } :=
  (claim_C1 "KEY" initialSession "/collections" [] {}
    ⟨200, "OK", [], none⟩ rfl).1

/-- C5: For every failure response whose status is 404 (the source's loose
`response.status == "404"`, which for the numeric status is equality with
404), the error classifier throws an error whose message embeds the request
location and the response's status text, and it never reads or parses the
response body on this path (`bodyRead = false`). -/
theorem claim_C5 (r : Response) (location : String) (h : r.status = 404) :
    handleErrors r location =
      { thrown := .error ("Request Failed. Request Response: " ++ location ++
          " = " ++ r.statusText),
        bodyRead := false } := by
  simp [handleErrors, h]

/-- Witness for C5: a mocked 404 with status text `"Not Found"` and a
non-JSON body yields the location/status-text message without reading the
body. -/
theorem claim_C5_witness :
    handleErrors ⟨404, "Not Found", [1, 2, 3], none⟩ "/collections" =
      { thrown := .error
          "Request Failed. Request Response: /collections = Not Found",
        bodyRead := false } := by
  have h := claim_C5 ⟨404, "Not Found", [1, 2, 3], none⟩ "/collections" rfl
  exact h.trans rfl

/-- C6: For every successful response, both unwrapper variants first attempt
the JSON parse and return the raw bytes of the (unconsumed, cloned) body
exactly when the parse fails; when the parse succeeds, variant A returns the
parsed value and variant B its `data` field, never the bytes. -/
theorem claim_C6 (r : Response) :
    (responseTypeV4 r = .bytes r.body ↔ r.jsonOf = none) ∧
    (responseTypeV3 r = .bytes r.body ↔ r.jsonOf = none) ∧
    (∀ j, r.jsonOf = some j →
      responseTypeV4 r = .val (some j) ∧
      responseTypeV3 r = .val (getField j "data")) := by
  cases hj : r.jsonOf with
  | none => simp [responseTypeV4, responseTypeV3, Response.clone, hj]
  | some j => simp [responseTypeV4, responseTypeV3, Response.clone, hj]

/-- Witness for C6: a 200 response with a binary (non-JSON) body comes back
byte-for-byte unchanged from both variants. -/
theorem claim_C6_witness :
    responseTypeV4 ⟨200, "OK", [255, 0, 17], none⟩ = .bytes [255, 0, 17] ∧
    responseTypeV3 ⟨200, "OK", [255, 0, 17], none⟩ = .bytes [255, 0, 17] :=
  ⟨(claim_C6 ⟨200, "OK", [255, 0, 17], none⟩).1.mpr rfl,
   (claim_C6 ⟨200, "OK", [255, 0, 17], none⟩).2.1.mpr rfl⟩

/-- C7: For every successful response whose body parses as JSON, the v3
pipeline (variant B's unwrapper) returns exactly the `data` field of the
parsed value and discards the rest of the envelope. -/
theorem claim_C7 (apiKey : String) (st : Session) (endpoint : String)
    (params : List (String × String)) (options : Options) (net : Response)
    (j : Json) (ht : jsTruthy st.authToken = true) (hok : net.ok = true)
    (hj : net.jsonOf = some j) :
    (requestV3 apiKey st endpoint params options net).result =
      .ok (.val (getField j "data")) := by
  simp [requestV3, requestWith, ht, hok, responseTypeV3, Response.clone, hj]

/-- Witness for C7: the body
`{"data":{"id":"abc"},"meta":{"total":1}}` unwraps to exactly
`{"id":"abc"}`, not the envelope. -/
theorem claim_C7_witness :
    (requestV3 "KEY"
        { authToken := some (.str "tok"), org := some .null,
          isTwoFactor := some .null }
        "/workspace/w1/media/m1/review" [] {}
        ⟨200, "OK", [],
          some (.obj [("data", .obj [("id", .str "abc")]),
                      ("meta", .obj [("total", .num 1)])])⟩).result =
      .ok (.val (some (.obj [("id", .str "abc")]))) := by
  have h := claim_C7 "KEY"
    { authToken := some (.str "tok"), org := some .null,
      isTwoFactor := some .null }
    "/workspace/w1/media/m1/review" [] {}
    ⟨200, "OK", [],
      some (.obj [("data", .obj [("id", .str "abc")]),
                  ("meta", .obj [("total", .num 1)])])⟩
    (.obj [("data", .obj [("id", .str "abc")]),
           ("meta", .obj [("total", .num 1)])])
    rfl rfl rfl
  exact h.trans rfl

/-- C4: For every failure response whose status is not 404 and whose body
parses as JSON with a top-level `errors` list (whose elements carry optional
nonempty-string `title` fields), the error classifier throws a single error
whose message is the request location together with all present titles
joined with `" | "`. -/
theorem claim_C4 (r : Response) (location : String) (j : Json)
    (errs : List Json) (h404 : r.status ≠ 404) (hj : r.jsonOf = some j)
    (he : getField j "errors" = some (.arr errs))
    (ht : titlesWellFormed errs = true) :
    handleErrors r location =
      { thrown := .error ("Request Failed. Request Response: " ++ location ++
          " = " ++ joinSep " | " (presentTitles errs)),
        bodyRead := true } := by
  simp [handleErrors, h404, hj, he, titles_join ht]

/-- Witness for C4: the body
`{"errors":[{"title":"Invalid field"},{"title":"Missing param"}]}` on a 400
yields a message containing `"Invalid field | Missing param"` and the
location. -/
theorem claim_C4_witness :
    handleErrors
        ⟨400, "Bad Request", [],
          some (.obj [("errors",
            .arr [.obj [("title", .str "Invalid field")],
                  .obj [("title", .str "Missing param")]])])⟩
        "/collections" =
      { thrown := .error
          "Request Failed. Request Response: /collections = Invalid field | Missing param",
        bodyRead := true } := by
  have h := claim_C4
    ⟨400, "Bad Request", [],
      some (.obj [("errors",
        .arr [.obj [("title", .str "Invalid field")],
              .obj [("title", .str "Missing param")]])])⟩
    "/collections"
    (.obj [("errors",
      .arr [.obj [("title", .str "Invalid field")],
            .obj [("title", .str "Missing param")]])])
    [.obj [("title", .str "Invalid field")],
     .obj [("title", .str "Missing param")]]
    (by decide) rfl rfl rfl
  exact h.trans rfl

/-- Counterexample to C3 as stated: on a concrete pipeline call whose caller
supplied `Content-Type: text/plain`, the headers handed to `fetch` carry
`Content-Type: application/json` — the fixed value, not the caller's, wins
the merge (`{ ...options.headers, ...fixed }` assigns the fixed keys last). -/
theorem claim_C3_counterexample :
    ((requestV4 "KEY"
        { authToken := some (.str "tok"), org := some .null,
          isTwoFactor := some .null }
        "/collections" []
        { method := none,
          headers := [("Content-Type", some (.str "text/plain"))],
          body := none }
        ⟨200, "OK", [], some (.obj [])⟩).fetchCalls.map
      (fun c => headerStr c.options.headers "Content-Type") =
        ["application/json"]) ∧
    ("application/json" : String) ≠ "text/plain" :=
  ⟨rfl, by decide⟩

/-- C3 (amended): every pipeline call hands `fetch` exactly the caller's
headers merged with the three fixed headers, where on a name conflict the
*fixed* value wins (the fixed headers are not overridable per call); caller
headers under any other name pass through unchanged. -/
theorem claim_C3 (apiKey : String) (st : Session) (endpoint : String)
    (params : List (String × String)) (options : Options) (net : Response)
    (ht : jsTruthy st.authToken = true) :
    ((requestV4 apiKey st endpoint params options net).fetchCalls.map
        (fun c => c.options.headers) =
      [mergeHeaders options.headers st.authToken apiKey]) ∧
    ((requestV3 apiKey st endpoint params options net).fetchCalls.map
        (fun c => c.options.headers) =
      [mergeHeaders options.headers st.authToken apiKey]) ∧
    (lookupKey (mergeHeaders options.headers st.authToken apiKey)
        "X-PS-Auth-Token" = some st.authToken) ∧
    (lookupKey (mergeHeaders options.headers st.authToken apiKey)
        "X-PS-API-Key" = some (some (.str apiKey))) ∧
    (lookupKey (mergeHeaders options.headers st.authToken apiKey)
        "Content-Type" = some (some (.str "application/json"))) ∧
    (∀ k, k ≠ "X-PS-Auth-Token" → k ≠ "X-PS-API-Key" → k ≠ "Content-Type" →
      lookupKey (mergeHeaders options.headers st.authToken apiKey) k =
        lookupKey options.headers k) := by
  refine ⟨?_, ?_, lookupKey_mergeHeaders_authToken _ _ _,
    lookupKey_mergeHeaders_apiKey _ _ _,
    lookupKey_mergeHeaders_contentType _ _ _,
    fun k h1 h2 h3 => lookupKey_mergeHeaders_other _ _ _ h1 h2 h3⟩
  · by_cases hok : net.ok <;> simp [requestV4, requestWith, ht, hok]
  · by_cases hok : net.ok <;> simp [requestV3, requestWith, ht, hok]

/-- Witness for C3 (amended): concrete call with a custom caller header; the
fetch carries the merged map and the custom header survives untouched. -/
theorem claim_C3_witness :
    ((requestV4 "KEY"
        { authToken := some (.str "tok"), org := some .null,
          isTwoFactor := some .null }
        "/collections" []
        { method := none, headers := [("X-Custom", some (.str "v"))],
          body := none }
        ⟨200, "OK", [], some (.obj [])⟩).fetchCalls.map
      (fun c => c.options.headers) =
        [mergeHeaders [("X-Custom", some (.str "v"))]
          (some (.str "tok")) "KEY"]) ∧
    lookupKey (mergeHeaders [("X-Custom", some (.str "v"))]
        (some (.str "tok")) "KEY") "X-Custom" = some (some (.str "v")) := by
  have h := claim_C3 "KEY"
    { authToken := some (.str "tok"), org := some .null,
      isTwoFactor := some .null }
    "/collections" []
    { method := none, headers := [("X-Custom", some (.str "v"))],
      body := none }
    ⟨200, "OK", [], some (.obj [])⟩ rfl
  exact ⟨h.1, (h.2.2.2.2.2 "X-Custom" (by decide) (by decide)
    (by decide)).trans rfl⟩

/-- C9: every pipeline call's URL is the base URL, the endpoint and the
`URLSearchParams` serialization of all supplied query parameters; every
supplied pair — empty-string values included — appears form-urlencoded in
that query string, and no key is dropped. -/
theorem claim_C9 (apiKey : String) (st : Session) (endpoint : String)
    (params : List (String × String)) (options : Options) (net : Response)
    (ht : jsTruthy st.authToken = true) :
    ((requestV4 apiKey st endpoint params options net).fetchCalls.map
        FetchCall.url =
      [baseUrlV4 ++ endpoint ++ querySuffix (serializeParams params)]) ∧
    ((requestV3 apiKey st endpoint params options net).fetchCalls.map
        FetchCall.url =
      [baseUrlV3 ++ endpoint ++ querySuffix (serializeParams params)]) ∧
    (∀ kv ∈ params, ∃ pre post,
      serializeParams params =
        pre ++ (formEncode kv.1 ++ "=" ++ formEncode kv.2) ++ post) := by
  refine ⟨?_, ?_, fun kv hkv => ?_⟩
  · by_cases hok : net.ok <;> simp [requestV4, requestWith, ht, hok]
  · by_cases hok : net.ok <;> simp [requestV3, requestWith, ht, hok]
  · simpa [serializeParams] using
      joinSep_infix "&"
        (List.mem_map_of_mem
          (fun p => formEncode p.1 ++ "=" ++ formEncode p.2) hkv)

/-- Witness for C9: a value containing `&` is percent-encoded to `%26` and
an empty-string value still appears as `key=`. -/
theorem claim_C9_witness :
    ((requestV4 "KEY"
        { authToken := some (.str "tok"), org := some .null,
          isTwoFactor := some .null }
        "/collections/search" [("q", "a&b"), ("empty", "")] {}
        ⟨200, "OK", [], some (.obj [])⟩).fetchCalls.map FetchCall.url =
      ["https://www.photoshelter.com/psapi/v4.0/collections/search?q=a%26b&empty="]) ∧
    (∃ pre post,
      serializeParams [("q", "a&b"), ("empty", "")] =
        pre ++ (formEncode "q" ++ "=" ++ formEncode "a&b") ++ post) := by
  have h := claim_C9 "KEY"
    { authToken := some (.str "tok"), org := some .null,
      isTwoFactor := some .null }
    "/collections/search" [("q", "a&b"), ("empty", "")] {}
    ⟨200, "OK", [], some (.obj [])⟩ rfl
  exact ⟨h.1.trans rfl, h.2.2 ("q", "a&b") (by simp)⟩

/-- C10: every pipeline call that reaches the network mutates the
caller-visible `options` object: `options.headers` is reassigned to the
merged header map before the `fetch`, the `fetch` itself receives the
mutated object, and whenever the caller's headers did not already carry
`Content-Type: application/json` the caller's `options` is observably
changed. -/
theorem claim_C10 (apiKey : String) (st : Session) (endpoint : String)
    (params : List (String × String)) (options : Options) (net : Response)
    (ht : jsTruthy st.authToken = true) :
    ((requestV4 apiKey st endpoint params options net).options =
      { options with
        headers := mergeHeaders options.headers st.authToken apiKey }) ∧
    ((requestV4 apiKey st endpoint params options net).fetchCalls.map
        FetchCall.options =
      [{ options with
         headers := mergeHeaders options.headers st.authToken apiKey }]) ∧
    ((requestV3 apiKey st endpoint params options net).options =
      { options with
        headers := mergeHeaders options.headers st.authToken apiKey }) ∧
    (headerStr options.headers "Content-Type" ≠ "application/json" →
      (requestV4 apiKey st endpoint params options net).options ≠ options) := by
  have h4 : (requestV4 apiKey st endpoint params options net).options =
      { options with
        headers := mergeHeaders options.headers st.authToken apiKey } := by
    by_cases hok : net.ok <;> simp [requestV4, requestWith, ht, hok]
  have h3 : (requestV3 apiKey st endpoint params options net).options =
      { options with
        headers := mergeHeaders options.headers st.authToken apiKey } := by
    by_cases hok : net.ok <;> simp [requestV3, requestWith, ht, hok]
  refine ⟨h4, ?_, h3, ?_⟩
  · by_cases hok : net.ok <;> simp [requestV4, requestWith, ht, hok]
  · intro hct heq
    apply hct
    rw [h4] at heq
    have hh := congrArg Options.headers heq
    simp only at hh
    calc headerStr options.headers "Content-Type"
        = headerStr (mergeHeaders options.headers st.authToken apiKey)
            "Content-Type" := by rw [hh]
      _ = "application/json" := headerStr_mergeHeaders_contentType _ _ _

/-- Witness for C10: a call made with an empty `options` comes back with its
headers reassigned to the merged map, so the caller's object changed. -/
theorem claim_C10_witness :
    ((requestV4 "KEY"
        { authToken := some (.str "tok"), org := some .null,
          isTwoFactor := some .null }
        "/collections" [] {} ⟨200, "OK", [], some (.obj [])⟩).options =
      { ({} : Options) with
        headers := mergeHeaders [] (some (.str "tok")) "KEY" }) ∧
    (requestV4 "KEY"
        { authToken := some (.str "tok"), org := some .null,
          isTwoFactor := some .null }
        "/collections" [] {} ⟨200, "OK", [], some (.obj [])⟩).options ≠
      ({} : Options) := by
  have h := claim_C10 "KEY"
    { authToken := some (.str "tok"), org := some .null,
      isTwoFactor := some .null }
    "/collections" [] {} ⟨200, "OK", [], some (.obj [])⟩ rfl
  exact ⟨h.1, h.2.2.2 (by decide)⟩

/-- C2: For every login call, a successful response stores the returned
token (and, for v4, the `org` and `two_factor` fields) into the session
holder, so that every subsequent pipeline call attaches an `X-PS-Auth-Token`
header equal to that token; a failing response makes login throw via the
error classifier (location `"login"`) and leaves every session field
unchanged. -/
theorem claim_C2 (apiKey : String) (st : Session) (email password : String)
    (orgId : Option String) (net : Response) :
    (∀ j t, net.ok = true → net.jsonOf = some j →
      getField j "token" = some (.str t) → t ≠ "" →
      (loginV4 apiKey st email password orgId net).result = .ok () ∧
      (loginV4 apiKey st email password orgId net).session =
        { authToken := some (.str t), org := getField j "org",
          isTwoFactor := getField j "two_factor" } ∧
      (∀ endpoint params options net2,
        (requestV4 apiKey
            (loginV4 apiKey st email password orgId net).session
            endpoint params options net2).fetchCalls.map
          (fun c => headerStr c.options.headers "X-PS-Auth-Token") = [t])) ∧
    (∀ j d t, net.ok = true → net.jsonOf = some j →
      getField j "data" = some d → getField d "token" = some (.str t) →
      t ≠ "" →
      (loginV3 apiKey st email password orgId net).result = .ok () ∧
      (loginV3 apiKey st email password orgId net).session.authToken =
        some (.str t) ∧
      (∀ endpoint params options net2,
        (requestV3 apiKey
            (loginV3 apiKey st email password orgId net).session
            endpoint params options net2).fetchCalls.map
          (fun c => headerStr c.options.headers "X-PS-Auth-Token") = [t])) ∧
    (net.ok = false →
      (loginV4 apiKey st email password orgId net).result =
        .error (handleErrors net "login").thrown ∧
      (loginV4 apiKey st email password orgId net).session = st ∧
      (loginV3 apiKey st email password orgId net).result =
        .error (handleErrors net "login").thrown ∧
      (loginV3 apiKey st email password orgId net).session = st) := by
  refine ⟨?_, ?_, ?_⟩
  · intro j t hok hj htok htne
    have hsess : (loginV4 apiKey st email password orgId net).session =
        { authToken := some (.str t), org := getField j "org",
          isTwoFactor := getField j "two_factor" } := by
      simp [loginV4, loginWith, hok, responseTypeV4, Response.clone, hj,
        respGet, htok]
    refine ⟨by simp [loginV4, loginWith, hok], hsess, ?_⟩
    intro endpoint params options net2
    rw [hsess]
    have htr : jsTruthy (some (Json.str t)) = true := by
      simp [jsTruthy, htne]
    by_cases hok2 : net2.ok <;>
      simp [requestV4, requestWith, htr, hok2, headerStr_mergeHeaders_token]
  · intro j d t hok hj hd htok htne
    have hsess : (loginV3 apiKey st email password orgId net).session.authToken =
        some (.str t) := by
      simp [loginV3, loginWith, hok, responseTypeV3, Response.clone, hj,
        respGet, hd, htok]
    refine ⟨by simp [loginV3, loginWith, hok], hsess, ?_⟩
    intro endpoint params options net2
    have htr : jsTruthy (some (Json.str t)) = true := by
      simp [jsTruthy, htne]
    by_cases hok2 : net2.ok <;>
      simp [requestV3, requestWith, htr, hok2, hsess,
        headerStr_mergeHeaders_token]
  · intro hnok
    refine ⟨?_, ?_, ?_, ?_⟩ <;> simp [loginV4, loginV3, loginWith, hnok]

/-- Witness for C2: a successful v4 login with token `"T1"` stores it, the
next call carries `X-PS-Auth-Token: T1`, and a failing login leaves the
fresh session untouched. -/
theorem claim_C2_witness :
    ((loginV4 "KEY" initialSession "a@b.c" "pw" none
        ⟨200, "OK", [],
          some (.obj [("token", .str "T1"), ("org", .str "O1"),
                      ("two_factor", .bool false)])⟩).session.authToken =
      some (.str "T1")) ∧
    ((requestV4 "KEY"
        (loginV4 "KEY" initialSession "a@b.c" "pw" none
          ⟨200, "OK", [],
            some (.obj [("token", .str "T1"), ("org", .str "O1"),
                        ("two_factor", .bool false)])⟩).session
        "/collections" [] {} ⟨200, "OK", [], none⟩).fetchCalls.map
      (fun c => headerStr c.options.headers "X-PS-Auth-Token") = ["T1"]) ∧
    ((loginV4 "KEY" initialSession "a@b.c" "pw" none
        ⟨401, "Unauthorized", [],
          some (.obj [("errors",
            .arr [.obj [("title", .str "Bad credentials")]])])⟩).session =
      initialSession) := by
  have hs := (claim_C2 "KEY" initialSession "a@b.c" "pw" none
    ⟨200, "OK", [],
      some (.obj [("token", .str "T1"), ("org", .str "O1"),
                  ("two_factor", .bool false)])⟩).1
    (.obj [("token", .str "T1"), ("org", .str "O1"),
           ("two_factor", .bool false)])
    "T1" rfl rfl rfl (by decide)
  have hf := (claim_C2 "KEY" initialSession "a@b.c" "pw" none
    ⟨401, "Unauthorized", [],
      some (.obj [("errors",
        .arr [.obj [("title", .str "Bad credentials")]])])⟩).2.2 rfl
  exact ⟨by rw [hs.2.1], hs.2.2 "/collections" [] {} ⟨200, "OK", [], none⟩,
    hf.2.1⟩

/-- C8: the form-encoded login body built from
`{email, password, mode, org_id}` drops every key whose value is falsy: with
`organizationId` omitted (or empty) the body is identical to the form built
without the `org_id` key at all, and both clients post exactly that body. -/
theorem claim_C8 (apiKey : String) (st : Session) (email password : String)
    (orgId : Option String) (net : Response) (he : email ≠ "")
    (hp : password ≠ "") (ho : orgId = none ∨ orgId = some "") :
    (toForm (loginFields email password orgId) =
      toForm [("email", some (.str email)),
              ("password", some (.str password)),
              ("mode", some (.str "token"))]) ∧
    ((loginV4 apiKey st email password orgId net).fetchCalls.map
        (fun c => c.options.body) =
      [some (toForm (loginFields email password orgId))]) ∧
    ((loginV3 apiKey st email password orgId net).fetchCalls.map
        (fun c => c.options.body) =
      [some (toForm (loginFields email password orgId))]) := by
  refine ⟨?_, ?_, ?_⟩
  · rcases ho with rfl | rfl <;>
      simp [toForm, loginFields, jsTruthy, he, hp, jsOptToString, jsToString,
        List.filter_cons, encPair_ne_empty]
  · by_cases hok : net.ok <;> simp [loginV4, loginWith, hok]
  · by_cases hok : net.ok <;> simp [loginV3, loginWith, hok]

/-- Witness for C8: omitting the organization id yields
`email=a%40b.c&password=hunter2&mode=token` — no `org_id` key at all. -/
theorem claim_C8_witness :
    (toForm (loginFields "a@b.c" "hunter2" none) =
      toForm [("email", some (.str "a@b.c")),
              ("password", some (.str "hunter2")),
              ("mode", some (.str "token"))]) ∧
    toForm (loginFields "a@b.c" "hunter2" none) =
      "email=a%40b.c&password=hunter2&mode=token" := by
  have h := claim_C8 "KEY" initialSession "a@b.c" "hunter2" none
    ⟨200, "OK", [], none⟩ (by decide) (by decide) (Or.inl rfl)
  exact ⟨h.1, by decide⟩

end PS
